import Mathlib

/-!
Verification of the GPT-J tensor-parallel layer policy
(src/oslo/models/gptj/configuration_gptj.py) and of the column-parallel
slicing contract of the partitioning primitives it relies on.

Tensors are abstracted by a type parameter T: the policy never inspects
tensor contents, it only routes references to them into Layer descriptors.
Modules are records carrying their weight and bias tensors; the scalar
attributes mutated by reduce_arguments are Nat fields on the attention
record.
-/

/-- Module classes named in the policy's substitution tables
(torch.nn.Linear, torch.nn.Embedding and the oslo parallel variants). -/
inductive ModuleKind where
  | Linear
  | Embedding
  | ColumnParallelLinear
  | RowParallelLinear
  | VocabParallelEmbedding
deriving DecidableEq, Repr

/-- Block-level module classes named by fused_modules
(from oslo.models.gptj.modeling_gptj). -/
inductive BlockModuleClass where
  | GPTJAttention
  | GPTJMLP
  | FusedGPTJAttention
  | FusedGPTJMLP
deriving DecidableEq, BEq, Repr

/-- A torch submodule as the policy sees it: a weight tensor and a bias
tensor (the policy reads .weight and .bias attributes off submodules). -/
structure PyModule (T : Type) where
  weight : T
  bias : T
deriving DecidableEq, Repr

/-- The attention submodule of a GPT-J block: the scalar attributes
embed_dim and num_attention_heads that reduce_arguments mutates, the four
projection submodules, and the bias / masked_bias buffers that
copy_to_all replicates. -/
structure GPTJAttention (T : Type) where
  embed_dim : Nat
  num_attention_heads : Nat
  q_proj : PyModule T
  k_proj : PyModule T
  v_proj : PyModule T
  out_proj : PyModule T
  bias : T
  masked_bias : T
deriving DecidableEq, Repr

/-- The MLP submodule of a GPT-J block. -/
structure GPTJMLP (T : Type) where
  fc_in : PyModule T
  fc_out : PyModule T
deriving DecidableEq, Repr

/-- One GPT-J transformer block: attention, first layer norm, MLP. -/
structure GPTJBlock (T : Type) where
  attn : GPTJAttention T
  ln_1 : PyModule T
  mlp : GPTJMLP T
deriving DecidableEq, Repr

/-- The GPT-J model tree regions the policy touches: word embedding wte,
the repeated blocks h, and the final layer norm ln_f. -/
structure GPTJModel (T : Type) where
  wte : PyModule T
  h : List (GPTJBlock T)
  ln_f : PyModule T
deriving DecidableEq, Repr

/-- The integer fields of GPTJConfig (configuration_gptj.py), with the
constructor defaults of the source; the float-valued fields (dropout
probabilities, layer_norm_epsilon, initializer_range) are not read by the
policy and are omitted. -/
structure GPTJConfig where
  vocab_size : Nat := 50400
  n_positions : Nat := 2048
  n_embd : Nat := 4096
  n_layer : Nat := 28
  n_head : Nat := 16
  rotary_dim : Nat := 64
deriving DecidableEq, Repr

/-- attribute_map: hidden_size is an alias for n_embd. -/
def GPTJConfig.hidden_size (c : GPTJConfig) : Nat := c.n_embd

/-- attribute_map: num_attention_heads is an alias for n_head. -/
def GPTJConfig.num_attention_heads (c : GPTJConfig) : Nat := c.n_head

/-- Modelled from the spec: the Layer descriptor class of
oslo.parallelism.mpu, which is not under src/. Per the spec's data model
it carries an owning module, a weight tensor, an optional bias tensor, a
partition flag defaulting to true, and an optional type-substitution
mapping; fields not supplied at a construction site are absent (none /
empty). -/
structure Layer (T : Type) where
  module : Option (PyModule T) := none
  weight : Option T := none
  bias : Option T := none
  parallel : Bool := true
  replace : List (ModuleKind × ModuleKind) := []
deriving DecidableEq, Repr

/-- reduce_arguments from GPTJLayerPolicy: assigns
layer.attn.embed_dim = config.hidden_size // world_size and
layer.attn.num_attention_heads = config.n_head // world_size. Python's
floor division on nonnegative ints is Nat division here. The Python
method mutates in place; the embedding returns the updated block. -/
def GPTJLayerPolicy.reduce_arguments {T : Type} (layer : GPTJBlock T)
    (world_size : Nat) (config : GPTJConfig) : GPTJBlock T :=
  { layer with
    attn := { layer.attn with
      embed_dim := config.hidden_size / world_size
      num_attention_heads := config.n_head / world_size } }

/-- fused_modules from GPTJLayerPolicy: the substitution table from
un-fused to fused block module classes, in source order. -/
def GPTJLayerPolicy.fused_modules : List (BlockModuleClass × BlockModuleClass) :=
  [(BlockModuleClass.GPTJAttention, BlockModuleClass.FusedGPTJAttention),
   (BlockModuleClass.GPTJMLP, BlockModuleClass.FusedGPTJMLP)]

/-- attn_qkv from GPTJLayerPolicy: three descriptors for q_proj, k_proj,
v_proj, each replacing nn.Linear by ColumnParallelLinear. -/
def GPTJLayerPolicy.attn_qkv {T : Type} (layer : GPTJBlock T)
    (_config : GPTJConfig) : List (Layer T) :=
  [{ module := some layer.attn.q_proj
     weight := some layer.attn.q_proj.weight
     replace := [(ModuleKind.Linear, ModuleKind.ColumnParallelLinear)] },
   { module := some layer.attn.k_proj
     weight := some layer.attn.k_proj.weight
     replace := [(ModuleKind.Linear, ModuleKind.ColumnParallelLinear)] },
   { module := some layer.attn.v_proj
     weight := some layer.attn.v_proj.weight
     replace := [(ModuleKind.Linear, ModuleKind.ColumnParallelLinear)] }]

/-- attn_out from GPTJLayerPolicy: out_proj replaced by
RowParallelLinear. -/
def GPTJLayerPolicy.attn_out {T : Type} (layer : GPTJBlock T)
    (_config : GPTJConfig) : List (Layer T) :=
  [{ module := some layer.attn.out_proj
     weight := some layer.attn.out_proj.weight
     replace := [(ModuleKind.Linear, ModuleKind.RowParallelLinear)] }]

/-- attn_norm from GPTJLayerPolicy: ln_1 with weight and bias,
parallel=False. -/
def GPTJLayerPolicy.attn_norm {T : Type} (layer : GPTJBlock T)
    (_config : GPTJConfig) : List (Layer T) :=
  [{ module := some layer.ln_1
     weight := some layer.ln_1.weight
     bias := some layer.ln_1.bias
     parallel := false }]

/-- mlp_in from GPTJLayerPolicy: fc_in with weight and bias, replaced by
ColumnParallelLinear. -/
def GPTJLayerPolicy.mlp_in {T : Type} (layer : GPTJBlock T)
    (_config : GPTJConfig) : List (Layer T) :=
  [{ module := some layer.mlp.fc_in
     weight := some layer.mlp.fc_in.weight
     bias := some layer.mlp.fc_in.bias
     replace := [(ModuleKind.Linear, ModuleKind.ColumnParallelLinear)] }]

/-- mlp_out from GPTJLayerPolicy: fc_out with weight and bias, replaced
by RowParallelLinear. -/
def GPTJLayerPolicy.mlp_out {T : Type} (layer : GPTJBlock T)
    (_config : GPTJConfig) : List (Layer T) :=
  [{ module := some layer.mlp.fc_out
     weight := some layer.mlp.fc_out.weight
     bias := some layer.mlp.fc_out.bias
     replace := [(ModuleKind.Linear, ModuleKind.RowParallelLinear)] }]

/-- word_embedding from GPTJLayerPolicy: wte replaced by
VocabParallelEmbedding. -/
def GPTJLayerPolicy.word_embedding {T : Type} (model : GPTJModel T)
    (_config : GPTJConfig) : List (Layer T) :=
  [{ module := some model.wte
     weight := some model.wte.weight
     replace := [(ModuleKind.Embedding, ModuleKind.VocabParallelEmbedding)] }]

/-- block_layers from GPTJLayerPolicy: the list of repeated transformer
blocks. -/
def GPTJLayerPolicy.block_layers {T : Type} (model : GPTJModel T)
    (_config : GPTJConfig) : List (GPTJBlock T) :=
  model.h

/-- postblock_layers from GPTJLayerPolicy: ln_f with weight and bias,
parallel=False. -/
def GPTJLayerPolicy.postblock_layers {T : Type} (model : GPTJModel T)
    (_config : GPTJConfig) : List (Layer T) :=
  [{ module := some model.ln_f
     weight := some model.ln_f.weight
     bias := some model.ln_f.bias
     parallel := false }]

/-- copy_to_all from GPTJLayerPolicy: the attn.bias and attn.masked_bias
buffers, bias field only, parallel=False. -/
def GPTJLayerPolicy.copy_to_all {T : Type} (layer : GPTJBlock T)
    (_config : GPTJConfig) : List (Layer T) :=
  [{ bias := some layer.attn.bias
     parallel := false },
   { bias := some layer.attn.masked_bias
     parallel := false }]

/-- Modelled from the spec: the ShapeError raised by the partitioning
primitives of oslo.parallelism (not under src/) when a tensor dimension
is not divisible by world_size. -/
inductive ShapeError where
  | indivisible (features world_size : Nat) : ShapeError
deriving DecidableEq, Repr

/-- Modelled from the spec: the output-feature slice a rank receives from
ColumnParallelLinear construction (oslo.parallelism, not under src/):
rows [rank * (out_features / world_size),
(rank + 1) * (out_features / world_size)) of the weight, one list element
per output-feature row. -/
def columnParallelSliceRows {α : Type} (weight : List α)
    (world_size rank : Nat) : List α :=
  (weight.drop (rank * (weight.length / world_size))).take
    (weight.length / world_size)

/-- Modelled from the spec: ColumnParallelLinear construction
(oslo.parallelism, not under src/) fails with a ShapeError when
out_features % world_size is nonzero, before copying any parameter;
otherwise it yields the rank's weight-row slice. -/
def columnParallelLinearShard {α : Type} (weight : List α)
    (world_size rank : Nat) : Except ShapeError (List α) :=
  if weight.length % world_size ≠ 0 then
    Except.error (ShapeError.indivisible weight.length world_size)
  else
    Except.ok (columnParallelSliceRows weight world_size rank)

/-- A concrete GPT-J block over Nat tensor ids, used to instantiate
hypotheses at concrete inputs. -/
def sampleBlock : GPTJBlock Nat :=
  { attn :=
      { embed_dim := 4096
        num_attention_heads := 16
        q_proj := { weight := 0, bias := 1 }
        k_proj := { weight := 2, bias := 3 }
        v_proj := { weight := 4, bias := 5 }
        out_proj := { weight := 6, bias := 7 }
        bias := 8
        masked_bias := 9 }
    ln_1 := { weight := 10, bias := 11 }
    mlp :=
      { fc_in := { weight := 12, bias := 13 }
        fc_out := { weight := 14, bias := 15 } } }

/-- The default GPT-J configuration: n_embd = 4096, n_head = 16. -/
def sampleConfig : GPTJConfig := {}

/-- Chunking lemma: concatenating the n consecutive k-row chunks of a
list of length n * k, in chunk order, reconstructs the list. -/
theorem flatten_chunks {α : Type} (k : Nat) :
    ∀ (n : Nat) (l : List α), l.length = n * k →
      ((List.range n).map (fun r => (l.drop (r * k)).take k)).flatten = l := by
  intro n
  induction n with
  | zero =>
    intro l hl
    simp only [Nat.zero_mul, List.length_eq_zero] at hl
    simp [hl]
  | succ n ih =>
    intro l hl
    rw [List.range_succ_eq_map]
    simp only [List.map_cons, List.map_map, List.flatten_cons]
    have hdrop : ∀ r : Nat, l.drop (Nat.succ r * k) = (l.drop k).drop (r * k) := by
      intro r
      rw [List.drop_drop, Nat.succ_mul, Nat.add_comm]
    have hlen : (l.drop k).length = n * k := by
      rw [List.length_drop, hl, Nat.succ_mul]
      omega
    have := ih (l.drop k) hlen
    calc (l.drop (0 * k)).take k ++
          ((List.range n).map ((fun r => (l.drop (r * k)).take k) ∘ Nat.succ)).flatten
        = l.take k ++
          ((List.range n).map (fun r => ((l.drop k).drop (r * k)).take k)).flatten := by
          simp only [Nat.zero_mul, List.drop_zero]
          congr 1
          apply congrArg
          apply List.map_congr_left
          intro r _
          simp only [Function.comp_apply, hdrop r]
      _ = l.take k ++ l.drop k := by rw [this]
      _ = l := List.take_append_drop k l

/-- C1: with hidden_size = 4096 and num_attention_heads = 16 in the
configuration, reduce_arguments at world_size = 4 leaves the block's
attention module with embed_dim = 1024 and num_attention_heads = 4. -/
theorem reduce_arguments_ws4_scenario {T : Type} (layer : GPTJBlock T)
    (config : GPTJConfig) (h1 : config.hidden_size = 4096)
    (h2 : config.num_attention_heads = 16) :
    (GPTJLayerPolicy.reduce_arguments layer 4 config).attn.embed_dim = 1024 ∧
    (GPTJLayerPolicy.reduce_arguments layer 4 config).attn.num_attention_heads = 4 := by
  have h2eq : config.n_head = 16 := h2
  constructor
  · simp [GPTJLayerPolicy.reduce_arguments, h1]
  · simp [GPTJLayerPolicy.reduce_arguments, h2eq]

/-- Witness for C1 at the default configuration and a concrete block. -/
theorem reduce_arguments_ws4_scenario_witness :
    (GPTJLayerPolicy.reduce_arguments sampleBlock 4 sampleConfig).attn.embed_dim = 1024 ∧
    (GPTJLayerPolicy.reduce_arguments sampleBlock 4 sampleConfig).attn.num_attention_heads = 4 :=
  reduce_arguments_ws4_scenario sampleBlock sampleConfig rfl rfl

/-- C2 counterexample: at a concrete block, world_size = 2 > 1 and the
default configuration, calling reduce_arguments a second time with the
same arguments leaves the attention module in exactly the same state as
calling it once, refuting the claim that a second call always corrupts
the state. -/
theorem reduce_arguments_second_call_same_state :
    (GPTJLayerPolicy.reduce_arguments
        (GPTJLayerPolicy.reduce_arguments sampleBlock 2 sampleConfig)
        2 sampleConfig).attn =
      (GPTJLayerPolicy.reduce_arguments sampleBlock 2 sampleConfig).attn := by
  decide

/-- C2 (amended): reduce_arguments is idempotent: for every block,
world_size and configuration, a second call with the same arguments
leaves the block (hence its attention module) in the same state as one
call, because the assigned values are read from the configuration, which
is never mutated, not from the block. -/
theorem reduce_arguments_idempotent {T : Type} (layer : GPTJBlock T)
    (world_size : Nat) (config : GPTJConfig) :
    GPTJLayerPolicy.reduce_arguments
        (GPTJLayerPolicy.reduce_arguments layer world_size config)
        world_size config =
      GPTJLayerPolicy.reduce_arguments layer world_size config := rfl

/-- C3: the policy's substitution directives: q_proj, k_proj, v_proj and
fc_in are column-parallel substitutions of nn.Linear, out_proj and fc_out
are row-parallel substitutions of nn.Linear, and the word embedding wte
is a vocabulary-parallel substitution of nn.Embedding; each descriptor
owns the module it replaces. -/
theorem policy_substitution_tables {T : Type} (layer : GPTJBlock T)
    (model : GPTJModel T) (config : GPTJConfig) :
    (GPTJLayerPolicy.attn_qkv layer config).map (fun d => (d.module, d.replace)) =
      [(some layer.attn.q_proj, [(ModuleKind.Linear, ModuleKind.ColumnParallelLinear)]),
       (some layer.attn.k_proj, [(ModuleKind.Linear, ModuleKind.ColumnParallelLinear)]),
       (some layer.attn.v_proj, [(ModuleKind.Linear, ModuleKind.ColumnParallelLinear)])] ∧
    (GPTJLayerPolicy.attn_out layer config).map (fun d => (d.module, d.replace)) =
      [(some layer.attn.out_proj, [(ModuleKind.Linear, ModuleKind.RowParallelLinear)])] ∧
    (GPTJLayerPolicy.mlp_in layer config).map (fun d => (d.module, d.replace)) =
      [(some layer.mlp.fc_in, [(ModuleKind.Linear, ModuleKind.ColumnParallelLinear)])] ∧
    (GPTJLayerPolicy.mlp_out layer config).map (fun d => (d.module, d.replace)) =
      [(some layer.mlp.fc_out, [(ModuleKind.Linear, ModuleKind.RowParallelLinear)])] ∧
    (GPTJLayerPolicy.word_embedding model config).map (fun d => (d.module, d.replace)) =
      [(some model.wte, [(ModuleKind.Embedding, ModuleKind.VocabParallelEmbedding)])] :=
  ⟨rfl, rfl, rfl, rfl, rfl⟩

/-- C4: every descriptor from attn_norm, postblock_layers and
copy_to_all carries parallel = false, every descriptor from the remaining
capabilities (attn_qkv, attn_out, mlp_in, mlp_out, word_embedding)
carries parallel = true, and a Layer descriptor built without an explicit
partition flag defaults to parallel = true. -/
theorem replicated_descriptors_not_partitioned {T : Type} (layer : GPTJBlock T)
    (model : GPTJModel T) (config : GPTJConfig) :
    (∀ d ∈ GPTJLayerPolicy.attn_norm layer config ++
           GPTJLayerPolicy.postblock_layers model config ++
           GPTJLayerPolicy.copy_to_all layer config, d.parallel = false) ∧
    (∀ d ∈ GPTJLayerPolicy.attn_qkv layer config ++
           GPTJLayerPolicy.attn_out layer config ++
           GPTJLayerPolicy.mlp_in layer config ++
           GPTJLayerPolicy.mlp_out layer config ++
           GPTJLayerPolicy.word_embedding model config, d.parallel = true) ∧
    ({} : Layer T).parallel = true := by
  refine ⟨?_, ?_, rfl⟩
  · intro d hd
    simp only [GPTJLayerPolicy.attn_norm, GPTJLayerPolicy.postblock_layers,
      GPTJLayerPolicy.copy_to_all, List.mem_append, List.mem_singleton,
      List.mem_cons, List.not_mem_nil, or_false] at hd
    rcases hd with (h | h) | (h | h) <;> subst h <;> rfl
  · intro d hd
    simp only [GPTJLayerPolicy.attn_qkv, GPTJLayerPolicy.attn_out,
      GPTJLayerPolicy.mlp_in, GPTJLayerPolicy.mlp_out,
      GPTJLayerPolicy.word_embedding, List.mem_append, List.mem_singleton,
      List.mem_cons, List.not_mem_nil, or_false] at hd
    rcases hd with ((((h | h | h) | h) | h) | h) | h <;> subst h <;> rfl

/-- C5: constructing a column-parallel shard when out_features is not
divisible by world_size fails with a ShapeError, and no slice of the
weight is produced. -/
theorem column_parallel_indivisible_shape_error {α : Type} (weight : List α)
    (world_size rank : Nat) (h : weight.length % world_size ≠ 0) :
    columnParallelLinearShard weight world_size rank =
      Except.error (ShapeError.indivisible weight.length world_size) := by
  simp [columnParallelLinearShard, h]

/-- Witness for C5: a 4-row weight at world_size = 3 (the spec's
hidden_size = 4096, world_size = 3 scenario in miniature). -/
theorem column_parallel_indivisible_shape_error_witness :
    columnParallelLinearShard ([0, 1, 2, 3] : List Nat) 3 0 =
      Except.error (ShapeError.indivisible 4 3) :=
  column_parallel_indivisible_shape_error [0, 1, 2, 3] 3 0 (by decide)

/-- C6: when out_features is divisible by world_size, concatenating every
rank's column-parallel weight slice in rank order reconstructs the
original weight exactly, and each rank's shard construction succeeds with
exactly that slice. -/
theorem column_parallel_concat_roundtrip {α : Type} (weight : List α)
    (world_size : Nat) (hpos : 0 < world_size)
    (hdvd : weight.length % world_size = 0) :
    ((List.range world_size).map
        (fun rank => columnParallelSliceRows weight world_size rank)).flatten = weight ∧
    ∀ rank : Nat, columnParallelLinearShard weight world_size rank =
      Except.ok (columnParallelSliceRows weight world_size rank) := by
  constructor
  · have hlen : weight.length = world_size * (weight.length / world_size) :=
      (Nat.mul_div_cancel' (Nat.dvd_of_mod_eq_zero hdvd)).symm
    exact flatten_chunks (weight.length / world_size) world_size weight hlen
  · intro rank
    simp [columnParallelLinearShard, hdvd]

/-- Witness for C6: a 6-row weight at world_size = 3 splits into three
2-row slices whose concatenation is the original weight. -/
theorem column_parallel_concat_roundtrip_witness :
    ((List.range 3).map
        (fun rank => columnParallelSliceRows ([0, 1, 2, 3, 4, 5] : List Nat) 3 rank)).flatten =
      [0, 1, 2, 3, 4, 5] :=
  (column_parallel_concat_roundtrip [0, 1, 2, 3, 4, 5] 3 (by decide) (by decide)).1

/-- C7: fused_modules is exactly the two-entry table mapping
GPTJAttention to FusedGPTJAttention and GPTJMLP to FusedGPTJMLP; looking
up either un-fused class yields its fused replacement and nothing else is
in the table. -/
theorem fused_modules_table :
    GPTJLayerPolicy.fused_modules =
      [(BlockModuleClass.GPTJAttention, BlockModuleClass.FusedGPTJAttention),
       (BlockModuleClass.GPTJMLP, BlockModuleClass.FusedGPTJMLP)] ∧
    GPTJLayerPolicy.fused_modules.length = 2 ∧
    GPTJLayerPolicy.fused_modules.lookup BlockModuleClass.GPTJAttention =
      some BlockModuleClass.FusedGPTJAttention ∧
    GPTJLayerPolicy.fused_modules.lookup BlockModuleClass.GPTJMLP =
      some BlockModuleClass.FusedGPTJMLP :=
  ⟨rfl, rfl, rfl, rfl⟩

/-- C9: for every block, positive world_size and configuration,
reduce_arguments totally (never failing) assigns
embed_dim = hidden_size / world_size and
num_attention_heads = n_head / world_size by integer floor division, so
a non-dividing world_size silently yields the floored quotient. -/
theorem reduce_arguments_floor_division {T : Type} (layer : GPTJBlock T)
    (world_size : Nat) (config : GPTJConfig) (hpos : 0 < world_size) :
    (GPTJLayerPolicy.reduce_arguments layer world_size config).attn.embed_dim =
      config.hidden_size / world_size ∧
    (GPTJLayerPolicy.reduce_arguments layer world_size config).attn.num_attention_heads =
      config.n_head / world_size :=
  ⟨rfl, rfl⟩

/-- Witness for C9 at world_size = 3, which divides neither 4096 nor 16:
the assignments silently floor (4096 / 3 = 1365, 16 / 3 = 5). -/
theorem reduce_arguments_floor_division_witness :
    (GPTJLayerPolicy.reduce_arguments sampleBlock 3 sampleConfig).attn.embed_dim =
      sampleConfig.hidden_size / 3 ∧
    (GPTJLayerPolicy.reduce_arguments sampleBlock 3 sampleConfig).attn.num_attention_heads =
      sampleConfig.n_head / 3 :=
  reduce_arguments_floor_division sampleBlock 3 sampleConfig (by decide)

/-- C10: descriptors are partial records: every copy_to_all descriptor
carries only a bias (module and weight absent), and every descriptor from
attn_qkv, attn_out and word_embedding carries a module and a weight but
no bias. -/
theorem descriptor_fields_partial {T : Type} (layer : GPTJBlock T)
    (model : GPTJModel T) (config : GPTJConfig) :
    (∀ d ∈ GPTJLayerPolicy.copy_to_all layer config,
        d.module = none ∧ d.weight = none ∧ d.bias ≠ none) ∧
    (∀ d ∈ GPTJLayerPolicy.attn_qkv layer config ++
           GPTJLayerPolicy.attn_out layer config ++
           GPTJLayerPolicy.word_embedding model config,
        d.module ≠ none ∧ d.weight ≠ none ∧ d.bias = none) := by
  constructor
  · intro d hd
    simp only [GPTJLayerPolicy.copy_to_all, List.mem_cons,
      List.not_mem_nil, or_false] at hd
    rcases hd with h | h <;> subst h <;> exact ⟨rfl, rfl, by simp⟩
  · intro d hd
    simp only [GPTJLayerPolicy.attn_qkv, GPTJLayerPolicy.attn_out,
      GPTJLayerPolicy.word_embedding, List.mem_append, List.mem_cons,
      List.not_mem_nil, or_false] at hd
    rcases hd with ((h | h | h) | h) | h <;> subst h <;>
      exact ⟨by simp, by simp, rfl⟩
